import Mathlib

/-!
Verification of the DHCP-snooping XDP packet parser
(src/dhcp-ebpf/src/main.rs) against its natural-language specification.

The program is embedded shallowly: the frame handed to the program is a
start address plus a finite list of byte values; `ptr_at` is the
bounds-checked pointer helper; `tryDhcp`/`dhcp` mirror `try_dhcp`/`dhcp`
line by line, with three pieces of instrumentation added to the return
value so that observable behaviour can be stated:
  - `events`: one entry per `info!` call executed, carrying the logged
    integer arguments (no `info!` call in the source logs a byte array);
  - `accesses`: one `(offset, size)` entry per successful `ptr_at` call
    (every successful `ptr_at` in the source is immediately dereferenced);
  - iteration count of the option-scan loop.
Machine integers are modelled as `Nat`: the only arithmetic in the source
is address/offset addition on `usize` (no wraparound is reachable for
frame-sized operands) and explicit endianness conversion, which is
modelled by the byte-level decoders below.
-/

namespace DhcpSnoop

/-- The XDP context as the program sees it: `ctx.data()` is the `start`
address and `ctx.data_end()` is `start` plus the number of frame bytes.
The byte list holds the frame contents. -/
structure XdpCtx where
  start : Nat
  data : List Nat
deriving DecidableEq, Repr

/-- The address returned by `ctx.data_end()`. -/
def XdpCtx.dataEnd (ctx : XdpCtx) : Nat := ctx.start + ctx.data.length

/-- The byte stored at relative offset `off` from `ctx.data()`.  Reads in
the embedded program are performed only after the corresponding `ptr_at`
bounds check succeeded, so the default value is never observable. -/
def byteAt (ctx : XdpCtx) (off : Nat) : Nat := ctx.data.getD off 0

/-- XDP verdict `xdp_action::XDP_ABORTED` (aya_bpf bindings, external crate). -/
def XDP_ABORTED : Nat := 0

/-- XDP verdict `xdp_action::XDP_DROP` (aya_bpf bindings, external crate). -/
def XDP_DROP : Nat := 1

/-- XDP verdict `xdp_action::XDP_PASS` (aya_bpf bindings, external crate). -/
def XDP_PASS : Nat := 2

/-- Constant `IPPROTO_UDP` from the source (line 19). -/
def IPPROTO_UDP : Nat := 17

/-- Constant `ETH_P_IP` from the source (line 20): 0x0800. -/
def ETH_P_IP : Nat := 0x0800

/-- Modelled from the spec: `mem::size_of::<ethhdr>()`.  The generated
`bindings.rs` with the `ethhdr` struct is not under src; the spec gives
the layout destination MAC (6 bytes), source MAC (6 bytes), ethertype
(16-bit), the standard Linux `ethhdr`, so the size is 14. -/
def ETH_HDR_LEN : Nat := 14

/-- Modelled from the spec: `mem::size_of::<iphdr>()`.  `bindings.rs` is
not under src; the standard Linux `iphdr` the spec refers to is 20 bytes
with the 8-bit protocol field at byte offset 9. -/
def IP_HDR_LEN : Nat := 20

/-- Modelled from the spec: `mem::size_of::<udphdr>()`.  `bindings.rs` is
not under src; the standard Linux `udphdr` is source port, destination
port, length, checksum, 16 bits each: 8 bytes. -/
def UDP_HDR_LEN : Nat := 8

/-- Size `mem::size_of::<DhcpPacket>()` of the `repr(C)` struct declared at
lines 245-262 of the source: 4 + 4 + 2 + 2 + 4*4 + 6 + 10 + 192 + 4 = 240
bytes, every field naturally aligned, no padding. -/
def DHCP_FIXED_LEN : Nat := 240

/-- The helper `ptr_at::<T>` (source lines 26-36): returns the address `start + offset`
when `start + offset + size_of::<T>() <= data_end`, and `None` otherwise,
touching no frame memory either way. -/
def ptr_at (ctx : XdpCtx) (offset size : Nat) : Option Nat :=
  if ctx.start + offset + size > ctx.dataEnd then
    none
  else
    some (ctx.start + offset)

/-- Big-endian decoding of two bytes, as produced by `u16::from_be` /
`u16::to_be` applied to a little-endian native load of wire data. -/
def be16 (ctx : XdpCtx) (off : Nat) : Nat :=
  byteAt ctx off * 256 + byteAt ctx (off + 1)

/-- Little-endian (native, no conversion in the source) decoding of two
bytes, as produced by a plain field load such as `(*dhcp).seconds_elapsed`. -/
def le16 (ctx : XdpCtx) (off : Nat) : Nat :=
  byteAt ctx off + byteAt ctx (off + 1) * 256

/-- Big-endian decoding of four bytes, as produced by `u32::to_be` applied
to a little-endian native load of wire data. -/
def be32 (ctx : XdpCtx) (off : Nat) : Nat :=
  byteAt ctx off * 16777216 + byteAt ctx (off + 1) * 65536 +
    byteAt ctx (off + 2) * 256 + byteAt ctx (off + 3)

/-- Little-endian (native, no conversion in the source) decoding of four
bytes, as produced by a plain field load such as `(*dhcp).client_address`. -/
def le32 (ctx : XdpCtx) (off : Nat) : Nat :=
  byteAt ctx off + byteAt ctx (off + 1) * 256 +
    byteAt ctx (off + 2) * 65536 + byteAt ctx (off + 3) * 16777216

/-- The value `usize::from_be_bytes([0, 0, b0, b1, b2, b3, b4, b5])`: the 48-bit
big-endian integer formed from six MAC-address bytes (source lines 71-90). -/
def mac48 (ctx : XdpCtx) (off : Nat) : Nat :=
  byteAt ctx off * 1099511627776 + byteAt ctx (off + 1) * 4294967296 +
    byteAt ctx (off + 2) * 16777216 + byteAt ctx (off + 3) * 65536 +
    byteAt ctx (off + 4) * 256 + byteAt ctx (off + 5)

/-- Modelled from the spec: the ethertype `u16::from_be((*eth).h_proto)`,
bytes 12-13 of the frame, big-endian (the `ethhdr` field layout comes from
the missing `bindings.rs`; the spec places the 16-bit ethertype after the
two 6-byte MAC addresses). -/
def ethProto (ctx : XdpCtx) : Nat := be16 ctx 12

/-- Modelled from the spec: the IPv4 protocol byte `(*ip).protocol`, at
offset 9 inside the standard Linux `iphdr` (`bindings.rs` is not under src). -/
def ipProtocol (ctx : XdpCtx) : Nat := byteAt ctx (ETH_HDR_LEN + 9)

/-- Modelled from the spec: the UDP source port `u16::from_be((*udp).source)`,
first field of the standard Linux `udphdr` (`bindings.rs` is not under src). -/
def udpSourcePort (ctx : XdpCtx) : Nat := be16 ctx (ETH_HDR_LEN + IP_HDR_LEN)

/-- Modelled from the spec: the UDP destination port `u16::from_be((*udp).dest)`,
second field of the standard Linux `udphdr` (`bindings.rs` is not under src). -/
def udpDestPort (ctx : XdpCtx) : Nat := be16 ctx (ETH_HDR_LEN + IP_HDR_LEN + 2)

/-- Modelled from the spec: the UDP length field `(*udp).len.to_be()`, third
field of the standard Linux `udphdr`, decoded to host order (source line
147, named `udp_payload_size` there). -/
def udpLenField (ctx : XdpCtx) : Nat := be16 ctx (ETH_HDR_LEN + IP_HDR_LEN + 4)

/-- One log record per `info!` call in the source, carrying the logged
integer arguments.  No `info!` call in the source logs a byte buffer, so
no constructor carries one. -/
inductive LogEvent where
  /-- Line 92: source MAC, source port, destination MAC, destination port. -/
  | macPorts (srcMac srcPort dstMac dstPort : Nat)
  /-- Line 100: op, htype, hlen, hops. -/
  | dhcpHeader (op htype hlen hops : Nat)
  /-- Line 108: transaction id, byte-swapped. -/
  | txid (x : Nat)
  /-- Line 111: seconds elapsed and flags, native byte order. -/
  | secsFlags (secs flags : Nat)
  /-- Line 117: client address, native byte order. -/
  | clientAddress (a : Nat)
  /-- Line 120: your address, native byte order. -/
  | yourAddress (a : Nat)
  /-- Line 121: next server address, native byte order. -/
  | nextServerAddress (a : Nat)
  /-- Line 124: relay agent address, native byte order. -/
  | relayAgentAddress (a : Nat)
  /-- Line 129: client hardware address as a 48-bit big-endian integer. -/
  | clientHardwareAddress (a : Nat)
  /-- Line 143: magic cookie, byte-swapped. -/
  | magicCookie (a : Nat)
  /-- Line 148: the UDP length field. -/
  | packetLength (n : Nat)
  /-- Line 170: option type and declared length of a skipped option. -/
  | optionHeader (t l : Nat)
  /-- Line 177: option type and declared length of the target option. -/
  | foundBody (t l : Nat)
  /-- Line 235: the length of the whole-frame slice. -/
  | sliceLength (n : Nat)
deriving DecidableEq, Repr

/-- A successful bounds-checked access: relative offset and size. -/
abbrev Access := Nat × Nat

/-- How one run of the option-scan loop ends: fell out or hit `break`
(`done`), propagated `Err v` through the `?` operator (`fail`), or hit the
failing `assert!` and entered the panic handler (`panicked`). -/
inductive LoopOut where
  | done
  | fail (v : Nat)
  | panicked
deriving DecidableEq, Repr

/-- Result of the option-scan loop: how it ended, how many times the loop
body was entered, the log events emitted and the accesses performed. -/
structure ScanResult where
  out : LoopOut
  iters : Nat
  events : List LogEvent
  accesses : List Access
deriving DecidableEq, Repr

/-- The `else` branch of the option type test (source lines 175-237),
taken when the scanned option type equals 15: logs the found option,
executes `assert!(ctx.data() + ETH_HDR_LEN + IP_HDR_LEN + UDP_HDR_LEN +
offset + 9 + 1 < ctx.data_end())` (panicking when it fails), then logs the
length of a slice spanning the whole frame and breaks.  The commented-out
value-copying code in the source is dead and not modelled. -/
def targetBranch (ctx : XdpCtx) (offset optType length : Nat) :
    LoopOut × List LogEvent :=
  if ctx.start + ETH_HDR_LEN + IP_HDR_LEN + UDP_HDR_LEN + offset + 9 + 1 <
      ctx.dataEnd then
    (.done, [.foundBody optType length, .sliceLength ctx.data.length])
  else
    (.panicked, [.foundBody optType length])

/-- The `while` loop of `try_dhcp` (source lines 154-240), written with a
structural recursion budget so that concrete frames evaluate by kernel
reduction.  `scanLoop` below invokes it with `budget = 70 - count`; under
that invariant the `budget = 0` fallback is unreachable, because the
recursive call is only taken when `count < 70`, which forces
`70 - count > 0`.  All guards and reads are those of the source:
the loop guard is `offset < udp_payload_size && offset < ctx.data_end()`,
each iteration reads the option type byte and the length byte through
`ptr_at` (failing as `Err(XDP_PASS)`), breaks on type 255, and for a
non-target type advances by `2 + length`, logs, and breaks when
`count >= 70 || offset >= ctx.data_end()`. -/
def scanGo (ctx : XdpCtx) (udpLen : Nat) : Nat → Nat → Nat → ScanResult
  | budget, offset, count =>
    if offset < udpLen ∧ offset < ctx.dataEnd then
      match ptr_at ctx (ETH_HDR_LEN + IP_HDR_LEN + UDP_HDR_LEN + offset) 1 with
      | none => ⟨.fail XDP_PASS, 1, [], []⟩
      | some _ =>
        let optType := byteAt ctx (ETH_HDR_LEN + IP_HDR_LEN + UDP_HDR_LEN + offset)
        let a1 : Access := (ETH_HDR_LEN + IP_HDR_LEN + UDP_HDR_LEN + offset, 1)
        match ptr_at ctx (ETH_HDR_LEN + IP_HDR_LEN + UDP_HDR_LEN + offset + 1) 1 with
        | none => ⟨.fail XDP_PASS, 1, [], [a1]⟩
        | some _ =>
          let length := byteAt ctx (ETH_HDR_LEN + IP_HDR_LEN + UDP_HDR_LEN + offset + 1)
          let a2 : Access := (ETH_HDR_LEN + IP_HDR_LEN + UDP_HDR_LEN + offset + 1, 1)
          if optType = 255 then
            ⟨.done, 1, [], [a1, a2]⟩
          else if optType ≠ 15 then
            let offset' := offset + 2 + length
            if count ≥ 70 ∨ offset' ≥ ctx.dataEnd then
              ⟨.done, 1, [.optionHeader optType length], [a1, a2]⟩
            else
              match budget with
              | 0 => ⟨.done, 1, [.optionHeader optType length], [a1, a2]⟩
              | b + 1 =>
                let rest := scanGo ctx udpLen b offset' (count + 1)
                ⟨rest.out, rest.iters + 1,
                  .optionHeader optType length :: rest.events,
                  a1 :: a2 :: rest.accesses⟩
          else
            let tb := targetBranch ctx offset optType length
            ⟨tb.1, 1, tb.2, [a1, a2]⟩
    else
      ⟨.done, 0, [], []⟩

/-- The option-scan loop entered at a given relative `offset` and
iteration counter `count` (the source enters it with `offset = 240`,
`count = 0`). -/
def scanLoop (ctx : XdpCtx) (udpLen offset count : Nat) : ScanResult :=
  scanGo ctx udpLen (70 - count) offset count

/-- Result type `Result<u32, u32>` of `try_dhcp`, plus the panic outcome of the
failing `assert!`. -/
inductive RunResult where
  | ok (v : Nat)
  | err (v : Nat)
  | panicked
deriving DecidableEq, Repr

/-- Observable result of one `try_dhcp` run. -/
structure RunOut where
  res : RunResult
  events : List LogEvent
  accesses : List Access
  scanIters : Nat
deriving DecidableEq, Repr

/-- The function `try_dhcp` (source lines 44-243), translated clause by clause.  Every
`ptr_at(..).ok_or(xdp_action::XDP_PASS)?` failure produces
`.err XDP_PASS`; each filter mismatch returns `Ok(XDP_PASS)` directly. -/
def tryDhcp (ctx : XdpCtx) : RunOut :=
  match ptr_at ctx 0 ETH_HDR_LEN with
  | none => ⟨.err XDP_PASS, [], [], 0⟩
  | some _ =>
    let accEth : Access := (0, ETH_HDR_LEN)
    if ethProto ctx ≠ ETH_P_IP then
      ⟨.ok XDP_PASS, [], [accEth], 0⟩
    else
      match ptr_at ctx ETH_HDR_LEN IP_HDR_LEN with
      | none => ⟨.err XDP_PASS, [], [accEth], 0⟩
      | some _ =>
        let accIp : Access := (ETH_HDR_LEN, IP_HDR_LEN)
        if ipProtocol ctx ≠ IPPROTO_UDP then
          ⟨.ok XDP_PASS, [], [accEth, accIp], 0⟩
        else
          match ptr_at ctx (ETH_HDR_LEN + IP_HDR_LEN) UDP_HDR_LEN with
          | none => ⟨.err XDP_PASS, [], [accEth, accIp], 0⟩
          | some _ =>
            let accUdp : Access := (ETH_HDR_LEN + IP_HDR_LEN, UDP_HDR_LEN)
            if udpSourcePort ctx ≠ 67 then
              ⟨.ok XDP_PASS, [], [accEth, accIp, accUdp], 0⟩
            else
              let evPorts := LogEvent.macPorts (mac48 ctx 6) (udpSourcePort ctx)
                (mac48 ctx 0) (udpDestPort ctx)
              match ptr_at ctx (ETH_HDR_LEN + IP_HDR_LEN + UDP_HDR_LEN)
                  DHCP_FIXED_LEN with
              | none => ⟨.err XDP_PASS, [evPorts], [accEth, accIp, accUdp], 0⟩
              | some _ =>
                let accDhcp : Access :=
                  (ETH_HDR_LEN + IP_HDR_LEN + UDP_HDR_LEN, DHCP_FIXED_LEN)
                let base := ETH_HDR_LEN + IP_HDR_LEN + UDP_HDR_LEN
                let evs : List LogEvent :=
                  [.dhcpHeader (byteAt ctx base) (byteAt ctx (base + 1))
                     (byteAt ctx (base + 2)) (byteAt ctx (base + 3)),
                   .txid (be32 ctx (base + 4)),
                   .secsFlags (le16 ctx (base + 8)) (le16 ctx (base + 10)),
                   .clientAddress (le32 ctx (base + 12)),
                   .yourAddress (le32 ctx (base + 16)),
                   .nextServerAddress (le32 ctx (base + 20)),
                   .relayAgentAddress (le32 ctx (base + 24)),
                   .clientHardwareAddress (mac48 ctx (base + 28)),
                   .magicCookie (be32 ctx (base + 236)),
                   .packetLength (udpLenField ctx)]
                let s := scanLoop ctx (udpLenField ctx) 240 0
                ⟨match s.out with
                  | .done => .ok XDP_PASS
                  | .fail v => .err v
                  | .panicked => .panicked,
                 evPorts :: evs ++ s.events,
                 accEth :: accIp :: accUdp :: accDhcp :: s.accesses,
                 s.iters⟩

/-- What one invocation of the XDP program does: return a verdict or hit
the panic handler. -/
inductive Outcome where
  | ret (v : Nat)
  | panicked
deriving DecidableEq, Repr

/-- Observable result of one invocation of the entry point. -/
structure DhcpOut where
  outcome : Outcome
  events : List LogEvent
  accesses : List Access
  scanIters : Nat
deriving DecidableEq, Repr

/-- The entry point `dhcp` (source lines 12-17): `Ok(ret)` is returned as
is; every `Err(_)` is mapped to `xdp_action::XDP_ABORTED`. -/
def dhcp (ctx : XdpCtx) : DhcpOut :=
  let t := tryDhcp ctx
  ⟨match t.res with
    | .ok v => .ret v
    | .err _ => .ret XDP_ABORTED
    | .panicked => .panicked,
   t.events, t.accesses, t.scanIters⟩

/-! ### Concrete test frames -/

/-- An Ethernet header: destination MAC, source MAC, ethertype (two bytes,
big-endian on the wire). -/
def ethBytes (dst src : List Nat) (tHi tLo : Nat) : List Nat :=
  dst ++ src ++ [tHi, tLo]

/-- A minimal IPv4 header: 20 bytes, protocol byte at offset 9, all other
fields zero. -/
def ipv4Bytes (proto : Nat) : List Nat :=
  List.replicate 9 0 ++ [proto] ++ List.replicate 10 0

/-- A UDP header: source port, destination port, length (big-endian),
zero checksum. -/
def udpBytes (sp dp ln : Nat) : List Nat :=
  [sp / 256, sp % 256, dp / 256, dp % 256, ln / 256, ln % 256, 0, 0]

/-- A DHCP fixed header: opcode followed by 239 zero bytes. -/
def dhcpFixedBytes (op : Nat) : List Nat :=
  op :: List.replicate 239 0

/-- The destination MAC AA:BB:CC:DD:EE:FF of the spec's concrete scenario. -/
def macDst : List Nat := [0xAA, 0xBB, 0xCC, 0xDD, 0xEE, 0xFF]

/-- The source MAC 11:22:33:44:55:66 of the spec's concrete scenario. -/
def macSrc : List Nat := [0x11, 0x22, 0x33, 0x44, 0x55, 0x66]

/-- Ethernet + IPv4(UDP) + UDP(67 to 68, length field `ln`) + DHCP fixed
header (opcode 2): the 282-byte prefix shared by the concrete frames. -/
def baseHeaders (ln : Nat) : List Nat :=
  ethBytes macDst macSrc 0x08 0x00 ++ ipv4Bytes 17 ++ udpBytes 67 68 ln ++
    dhcpFixedBytes 2

/-- Frame with target option 15 (length 4, value "host"), sentinel, and
enough trailing padding for the target-branch assertion to hold. -/
def c3Frame : XdpCtx :=
  ⟨0, baseHeaders 255 ++ [15, 4, 0x68, 0x6f, 0x73, 0x74, 255] ++ List.replicate 7 0⟩

/-- Frame whose UDP length field is 245: the claimed traversal bound
`245 - 8 = 237` lies below the first option offset 240, yet the scan runs. -/
def c4Frame : XdpCtx := ⟨0, baseHeaders 245 ++ [255, 0]⟩

/-- Frame whose option region is the single sentinel byte 255, with the
frame ending immediately after it. -/
def c5Frame : XdpCtx := ⟨0, baseHeaders 249 ++ [255]⟩

/-- Frame whose option region is 100 consecutive options of type 1 and
declared length 0 (more than the iteration cap). -/
def c6Frame : XdpCtx :=
  ⟨0, baseHeaders 448 ++ List.flatten (List.replicate 100 [1, 0])⟩

/-- The spec's concrete scenario frame: option 12 (length 4, value "host")
followed by the sentinel, UDP length field 8 + 240 + 6 = 254. -/
def c8Frame : XdpCtx := ⟨0, baseHeaders 254 ++ [12, 4, 0x68, 0x6f, 0x73, 0x74, 255]⟩

/-- Frame whose option region is `[15, 0]` with the frame ending right
after the length byte: the target branch is reached with no spare bytes. -/
def c10Frame : XdpCtx := ⟨0, baseHeaders 252 ++ [15, 0]⟩

/-- The DHCP-field log events shared by the concrete frames above (all
fixed-header bytes other than the opcode are zero), parametrised by the
logged UDP length field. -/
def fixedHeaderEvents (ln : Nat) : List LogEvent :=
  [.macPorts 0x112233445566 67 0xAABBCCDDEEFF 68,
   .dhcpHeader 2 0 0 0, .txid 0, .secsFlags 0 0,
   .clientAddress 0, .yourAddress 0, .nextServerAddress 0,
   .relayAgentAddress 0, .clientHardwareAddress 0, .magicCookie 0,
   .packetLength ln]

/-- Recogniser for the target-option log record (source line 177). -/
def isFoundBody : LogEvent → Bool
  | .foundBody _ _ => true
  | _ => false

/-! ### Helper lemmas -/

/-- Combined invariant of the option-scan loop, by induction on the
structural budget: the loop outcome is `done`, `fail XDP_PASS` or
`panicked` (no other error value exists); the loop body runs at most
`budget + 1` times; and every access it performs is the type byte or the
length byte of an option whose relative offset satisfies both loop-guard
bounds. -/
theorem scanGo_props (ctx : XdpCtx) (udpLen : Nat) :
    ∀ (budget offset count : Nat),
      ((scanGo ctx udpLen budget offset count).out = .done ∨
       (scanGo ctx udpLen budget offset count).out = .fail XDP_PASS ∨
       (scanGo ctx udpLen budget offset count).out = .panicked) ∧
      (scanGo ctx udpLen budget offset count).iters ≤ budget + 1 ∧
      (∀ a ∈ (scanGo ctx udpLen budget offset count).accesses,
        ∃ r, r < udpLen ∧ r < ctx.dataEnd ∧
          (a = (ETH_HDR_LEN + IP_HDR_LEN + UDP_HDR_LEN + r, 1) ∨
           a = (ETH_HDR_LEN + IP_HDR_LEN + UDP_HDR_LEN + r + 1, 1))) := by
  intro budget
  induction budget with
  | zero =>
    intro offset count
    rw [scanGo]
    by_cases hg : offset < udpLen ∧ offset < ctx.dataEnd
    · simp only [if_pos hg]
      cases h1 : ptr_at ctx (ETH_HDR_LEN + IP_HDR_LEN + UDP_HDR_LEN + offset) 1 with
      | none => simp
      | some p1 =>
        cases h2 : ptr_at ctx (ETH_HDR_LEN + IP_HDR_LEN + UDP_HDR_LEN + offset + 1) 1 with
        | none =>
          refine ⟨by simp, by simp, ?_⟩
          intro a ha
          simp at ha
          exact ⟨offset, hg.1, hg.2, Or.inl (by simp [ha])⟩
        | some p2 =>
          by_cases h255 : byteAt ctx (ETH_HDR_LEN + IP_HDR_LEN + UDP_HDR_LEN + offset) = 255
          · refine ⟨by simp [h255], by simp [h255], ?_⟩
            intro a ha
            simp [h255] at ha
            rcases ha with ha | ha
            · exact ⟨offset, hg.1, hg.2, Or.inl (by simp [ha])⟩
            · exact ⟨offset, hg.1, hg.2, Or.inr (by simp [ha])⟩
          · by_cases h15 : byteAt ctx (ETH_HDR_LEN + IP_HDR_LEN + UDP_HDR_LEN + offset) = 15
            · refine ⟨?_, ?_, ?_⟩
              · simp [h255, h15, targetBranch]
                try (split <;> simp)
              · simp [h255, h15, targetBranch]
                try (split <;> simp)
              · intro a ha
                simp [h255, h15] at ha
                rcases ha with ha | ha
                · exact ⟨offset, hg.1, hg.2, Or.inl (by simp [ha])⟩
                · exact ⟨offset, hg.1, hg.2, Or.inr (by simp [ha])⟩
            · refine ⟨?_, ?_, ?_⟩
              · simp [h255, h15]
                try (split <;> simp)
              · simp [h255, h15]
                try (split <;> simp)
              · intro a ha
                simp [h255, h15] at ha
                rcases ha with ha | ha
                · exact ⟨offset, hg.1, hg.2, Or.inl (by simp [ha])⟩
                · exact ⟨offset, hg.1, hg.2, Or.inr (by simp [ha])⟩
    · simp [hg]
  | succ b ih =>
    intro offset count
    rw [scanGo]
    by_cases hg : offset < udpLen ∧ offset < ctx.dataEnd
    · simp only [if_pos hg]
      cases h1 : ptr_at ctx (ETH_HDR_LEN + IP_HDR_LEN + UDP_HDR_LEN + offset) 1 with
      | none => simp
      | some p1 =>
        cases h2 : ptr_at ctx (ETH_HDR_LEN + IP_HDR_LEN + UDP_HDR_LEN + offset + 1) 1 with
        | none =>
          refine ⟨by simp, by simp, ?_⟩
          intro a ha
          simp at ha
          exact ⟨offset, hg.1, hg.2, Or.inl (by simp [ha])⟩
        | some p2 =>
          by_cases h255 : byteAt ctx (ETH_HDR_LEN + IP_HDR_LEN + UDP_HDR_LEN + offset) = 255
          · refine ⟨by simp [h255], by simp [h255], ?_⟩
            intro a ha
            simp [h255] at ha
            rcases ha with ha | ha
            · exact ⟨offset, hg.1, hg.2, Or.inl (by simp [ha])⟩
            · exact ⟨offset, hg.1, hg.2, Or.inr (by simp [ha])⟩
          · by_cases h15 : byteAt ctx (ETH_HDR_LEN + IP_HDR_LEN + UDP_HDR_LEN + offset) = 15
            · refine ⟨?_, ?_, ?_⟩
              · simp [h255, h15, targetBranch]
                try (split <;> simp)
              · simp [h255, h15, targetBranch]
                try (split <;> simp)
              · intro a ha
                simp [h255, h15] at ha
                rcases ha with ha | ha
                · exact ⟨offset, hg.1, hg.2, Or.inl (by simp [ha])⟩
                · exact ⟨offset, hg.1, hg.2, Or.inr (by simp [ha])⟩
            · by_cases hcap : 70 ≤ count ∨
                  ctx.dataEnd ≤ offset + 2 + byteAt ctx (ETH_HDR_LEN + IP_HDR_LEN + UDP_HDR_LEN + offset + 1)
              · refine ⟨by simp [h255, h15, hcap], by simp [h255, h15, hcap], ?_⟩
                intro a ha
                simp [h255, h15, hcap] at ha
                rcases ha with ha | ha
                · exact ⟨offset, hg.1, hg.2, Or.inl (by simp [ha])⟩
                · exact ⟨offset, hg.1, hg.2, Or.inr (by simp [ha])⟩
              · obtain ⟨ihOut, ihIters, ihAcc⟩ :=
                  ih (offset + 2 + byteAt ctx (ETH_HDR_LEN + IP_HDR_LEN + UDP_HDR_LEN + offset + 1)) (count + 1)
                refine ⟨?_, ?_, ?_⟩
                · simpa [h255, h15, hcap] using ihOut
                · simp [h255, h15, hcap]
                  omega
                · intro a ha
                  simp [h255, h15, hcap] at ha
                  rcases ha with ha | ha | ha
                  · exact ⟨offset, hg.1, hg.2, Or.inl (by simp [ha])⟩
                  · exact ⟨offset, hg.1, hg.2, Or.inr (by simp [ha])⟩
                  · exact ihAcc a ha
    · simp [hg]

/-- The option-scan loop never fails with any error value other than
`XDP_PASS`. -/
theorem scanLoop_out_cases (ctx : XdpCtx) (udpLen offset count : Nat) :
    (scanLoop ctx udpLen offset count).out = .done ∨
    (scanLoop ctx udpLen offset count).out = .fail XDP_PASS ∨
    (scanLoop ctx udpLen offset count).out = .panicked :=
  (scanGo_props ctx udpLen (70 - count) offset count).1

/-- Every run of `try_dhcp` ends as `Ok(XDP_PASS)`, `Err(XDP_PASS)` or the
panic path: no other values flow out. -/
theorem tryDhcp_res_cases (ctx : XdpCtx) :
    (tryDhcp ctx).res = .ok XDP_PASS ∨ (tryDhcp ctx).res = .err XDP_PASS ∨
    (tryDhcp ctx).res = .panicked := by
  unfold tryDhcp
  repeat' split
  all_goals simp_all
  rcases scanLoop_out_cases ctx (udpLenField ctx) 240 0 with h | h | h <;> simp_all

/-- The entry point forwards the scan-iteration count of `try_dhcp`. -/
theorem dhcp_scanIters_eq (ctx : XdpCtx) :
    (dhcp ctx).scanIters = (tryDhcp ctx).scanIters := rfl

/-- Byte values of the flattened option region made of repeated
`[type 1, length 0]` pairs. -/
theorem flatten_pairs_getD :
    ∀ (m k : Nat), k < m →
      (List.flatten (List.replicate m [1, 0])).getD (2 * k) 0 = 1 ∧
      (List.flatten (List.replicate m [1, 0])).getD (2 * k + 1) 0 = 0 := by
  intro m
  induction m with
  | zero => intro k hk; omega
  | succ m ih =>
    intro k hk
    rw [List.replicate_succ, List.flatten_cons]
    simp only [List.cons_append, List.nil_append]
    cases k with
    | zero => simp
    | succ k =>
      have h2 : 2 * (k + 1) = 2 * k + 1 + 1 := by omega
      rw [h2]
      rw [List.getD_cons_succ, List.getD_cons_succ, List.getD_cons_succ, List.getD_cons_succ]
      exact ih k (by omega)

set_option maxRecDepth 200000 in
/-- Length of the shared Ethernet + IPv4 + UDP + DHCP-fixed-header prefix. -/
theorem baseHeaders_len : (baseHeaders 448).length = 282 := by decide

set_option maxRecDepth 200000 in
/-- Option bytes of the iteration-cap frame: type 1 at every even relative
offset of the option region, declared length 0 after it. -/
theorem c6Frame_bytes :
    ∀ k : Nat, k < 100 →
      byteAt c6Frame (282 + 2 * k) = 1 ∧ byteAt c6Frame (283 + 2 * k) = 0 := by
  intro k hk
  have h1 : byteAt c6Frame (282 + 2 * k) =
      (List.flatten (List.replicate 100 [1, 0])).getD (2 * k) 0 := by
    show (baseHeaders 448 ++ List.flatten (List.replicate 100 [1, 0])).getD (282 + 2 * k) 0 =
      (List.flatten (List.replicate 100 [1, 0])).getD (2 * k) 0
    rw [List.getD_append_right _ _ _ _ (by rw [baseHeaders_len]; omega)]
    rw [baseHeaders_len]
    congr 1
    omega
  have h2 : byteAt c6Frame (283 + 2 * k) =
      (List.flatten (List.replicate 100 [1, 0])).getD (2 * k + 1) 0 := by
    show (baseHeaders 448 ++ List.flatten (List.replicate 100 [1, 0])).getD (283 + 2 * k) 0 =
      (List.flatten (List.replicate 100 [1, 0])).getD (2 * k + 1) 0
    rw [List.getD_append_right _ _ _ _ (by rw [baseHeaders_len]; omega)]
    rw [baseHeaders_len]
    congr 1
    omega
  rw [h1, h2]
  exact flatten_pairs_getD 100 k hk

set_option maxRecDepth 200000 in
/-- Frame extent of the iteration-cap frame. -/
theorem c6Frame_dataEnd : c6Frame.dataEnd = 482 := by decide

set_option maxRecDepth 200000 in
/-- On the iteration-cap frame, the scan entered at `offset = 240 + 2 * count`
with `count + n = 70` runs `n + 1` more iterations, logs one skipped-option
record per iteration, and ends with the cap break. -/
theorem c6_scan :
    ∀ (n count offset : Nat), count + n = 70 → offset = 240 + 2 * count →
      (scanGo c6Frame 448 n offset count).out = .done ∧
      (scanGo c6Frame 448 n offset count).iters = n + 1 ∧
      (scanGo c6Frame 448 n offset count).events =
        List.replicate (n + 1) (.optionHeader 1 0) := by
  intro n
  induction n with
  | zero =>
    intro count offset hc ho
    have h1 : count = 70 := by omega
    subst h1
    subst ho
    decide
  | succ n ih =>
    intro count offset hc ho
    have hidx1 : ETH_HDR_LEN + IP_HDR_LEN + UDP_HDR_LEN + offset = 282 + 2 * count := by
      simp only [ETH_HDR_LEN, IP_HDR_LEN, UDP_HDR_LEN]
      omega
    have hb := c6Frame_bytes count (by omega)
    have h1 : byteAt c6Frame (ETH_HDR_LEN + IP_HDR_LEN + UDP_HDR_LEN + offset) = 1 := by
      rw [hidx1]
      exact hb.1
    have h0 : byteAt c6Frame (ETH_HDR_LEN + IP_HDR_LEN + UDP_HDR_LEN + offset + 1) = 0 := by
      rw [hidx1, show 282 + 2 * count + 1 = 283 + 2 * count from by omega]
      exact hb.2
    have hg : offset < 448 ∧ offset < c6Frame.dataEnd := by
      rw [c6Frame_dataEnd]
      omega
    have hp1 : ptr_at c6Frame (ETH_HDR_LEN + IP_HDR_LEN + UDP_HDR_LEN + offset) 1 =
        some (c6Frame.start + (ETH_HDR_LEN + IP_HDR_LEN + UDP_HDR_LEN + offset)) := by
      unfold ptr_at
      rw [if_neg]
      simp only [c6Frame_dataEnd, hidx1, show c6Frame.start = 0 from rfl]
      omega
    have hp2 : ptr_at c6Frame (ETH_HDR_LEN + IP_HDR_LEN + UDP_HDR_LEN + offset + 1) 1 =
        some (c6Frame.start + (ETH_HDR_LEN + IP_HDR_LEN + UDP_HDR_LEN + offset + 1)) := by
      unfold ptr_at
      rw [if_neg]
      simp only [c6Frame_dataEnd, hidx1, show c6Frame.start = 0 from rfl]
      omega
    have hcap : ¬ (70 ≤ count ∨ c6Frame.dataEnd ≤ offset + 2 + 0) := by
      rw [c6Frame_dataEnd]
      omega
    obtain ⟨ihO, ihI, ihE⟩ := ih (count + 1) (offset + 2 + 0) (by omega) (by omega)
    rw [scanGo]
    simp only [if_pos hg, hp1, hp2, h1, h0]
    norm_num
    rw [if_neg hcap]
    refine ⟨?_, ?_, ?_⟩
    · simpa using ihO
    · simp only [ihI]
    · simp only [ihE, List.replicate_succ]

set_option maxRecDepth 400000 in
/-- Full observable behaviour of the entry point on the iteration-cap
frame: verdict Continue, 71 loop iterations, and one skipped-option log
record per iteration after the fixed-header records. -/
theorem c6_run :
    (dhcp c6Frame).outcome = .ret XDP_PASS ∧
    (dhcp c6Frame).scanIters = 71 ∧
    (dhcp c6Frame).events =
      fixedHeaderEvents 448 ++ List.replicate 71 (.optionHeader 1 0) := by
  obtain ⟨hO, hI, hE⟩ := c6_scan 70 0 240 (by omega) (by omega)
  have hU : udpLenField c6Frame = 448 := by decide
  have hp0 : ptr_at c6Frame 0 ETH_HDR_LEN = some (c6Frame.start + 0) := by decide
  have hp1 : ptr_at c6Frame ETH_HDR_LEN IP_HDR_LEN =
      some (c6Frame.start + ETH_HDR_LEN) := by decide
  have hp2 : ptr_at c6Frame (ETH_HDR_LEN + IP_HDR_LEN) UDP_HDR_LEN =
      some (c6Frame.start + (ETH_HDR_LEN + IP_HDR_LEN)) := by decide
  have hp3 : ptr_at c6Frame (ETH_HDR_LEN + IP_HDR_LEN + UDP_HDR_LEN) DHCP_FIXED_LEN =
      some (c6Frame.start + (ETH_HDR_LEN + IP_HDR_LEN + UDP_HDR_LEN)) := by decide
  have hEp : ethProto c6Frame = ETH_P_IP := by decide
  have hIp : ipProtocol c6Frame = IPPROTO_UDP := by decide
  have hSp : udpSourcePort c6Frame = 67 := by decide
  have hsl : scanLoop c6Frame 448 240 0 = scanGo c6Frame 448 70 240 0 := rfl
  unfold dhcp tryDhcp
  simp only [hp0, hp1, hp2, hp3, hEp, hIp, hSp, hsl, hU]
  simp only [ne_eq, not_true_eq_false, if_false, ite_false]
  refine ⟨?_, ?_, ?_⟩
  · simp only [hsl, hO]
  · simp only [hsl, hI]
  · simp only [hsl, hE]
    congr 1 <;> decide

/-! ### Theorems -/

/-- Claim C2: `ptr_at` returns the pointer `start + offset` exactly when
`start + offset + size` does not exceed `data_end`; otherwise it returns
`None`; and its answer never depends on the frame contents, only on the
frame extent, so no memory is touched by the check itself. -/
theorem ptr_at_within_bounds_iff :
    ∀ (ctx : XdpCtx) (offset size : Nat),
      (ptr_at ctx offset size = some (ctx.start + offset) ↔
        ctx.start + offset + size ≤ ctx.dataEnd) ∧
      (ptr_at ctx offset size = none ↔
        ctx.dataEnd < ctx.start + offset + size) ∧
      ptr_at ctx offset size =
        ptr_at ⟨ctx.start, List.replicate ctx.data.length 0⟩ offset size := by
  intro ctx offset size
  refine ⟨?_, ?_, ?_⟩
  · by_cases h : ctx.start + offset + size > ctx.dataEnd
    · simp [ptr_at, h]
      try omega
    · simp [ptr_at, h]
      try omega
  · by_cases h : ctx.start + offset + size > ctx.dataEnd
    · simp [ptr_at, h]
      try omega
    · simp [ptr_at, h]
      try omega
  · simp [ptr_at, XdpCtx.dataEnd]

/-- Claim C1 (failing input): on the empty frame the very first
bounds-checked read fails, `try_dhcp` returns `Err(XDP_PASS)`, and the
entry point maps every `Err` to `XDP_ABORTED`, so the verdict is Error,
not the Continue the spec prescribes for bounds failures. -/
theorem dhcp_empty_frame_aborted :
    dhcp ⟨0, []⟩ = ⟨.ret XDP_ABORTED, [], [], 0⟩ := by decide

set_option maxRecDepth 200000 in
/-- Claim C3 (failing input): on a well-formed frame carrying the target
option (type 15, length 4, value "host") the scan reaches the target
branch, but the emitted records are only the found-option type/length pair
and the whole-frame slice length: no option value is captured or emitted
(the copying code in the source is commented out). -/
theorem dhcp_target_option_captures_nothing :
    dhcp c3Frame =
      ⟨.ret XDP_PASS,
       fixedHeaderEvents 255 ++ [.foundBody 15 4, .sliceLength 296],
       [(0, 14), (14, 20), (34, 8), (42, 240), (282, 1), (283, 1)], 1⟩ := by
  decide

set_option maxRecDepth 200000 in
/-- Claim C4 (counterexample): with UDP length field 245 the claimed
traversal bound is `245 - 8 = 237`, which lies below the first option
offset 240, so under the claim the scan would inspect nothing; the code
nevertheless reads the option bytes at relative offset 240 (absolute
offsets 282 and 283), because its loop guard uses the full UDP length with
no header subtraction. -/
theorem scan_reads_offset_beyond_claimed_bound :
    udpLenField c4Frame = 245 ∧
    (ETH_HDR_LEN + IP_HDR_LEN + UDP_HDR_LEN + 240, 1) ∈ (dhcp c4Frame).accesses ∧
    ¬ (240 < 245 - UDP_HDR_LEN) := by decide

set_option maxRecDepth 200000 in
/-- Claim C5 (failing input): a frame whose option region is exactly the
sentinel byte 255 at its last byte.  The loop reads the option type (255)
but first also attempts the length byte one past the end; that bounds
check fails, `try_dhcp` propagates `Err(XDP_PASS)`, and the entry point
turns it into `XDP_ABORTED` instead of the Continue the claim states. -/
theorem dhcp_sentinel_truncated_aborted :
    dhcp c5Frame =
      ⟨.ret XDP_ABORTED, fixedHeaderEvents 249,
       [(0, 14), (14, 20), (34, 8), (42, 240), (282, 1)], 1⟩ := by decide

set_option maxRecDepth 200000 in
/-- Claim C8 (counterexample): on the spec's concrete scenario frame the
verdict is `XDP_ABORTED`, not Continue: option 12 is skipped (the code's
target is 15), and the bounds-checked read of the length byte after the
final sentinel falls one byte past the frame end, producing an error that
the entry point maps to `XDP_ABORTED`. -/
theorem concrete_scenario_verdict_not_pass :
    (dhcp c8Frame).outcome = .ret XDP_ABORTED ∧
    Outcome.ret XDP_ABORTED ≠ Outcome.ret XDP_PASS := by decide

set_option maxRecDepth 200000 in
/-- Claim C8 (amended behaviour): the full observable run on the spec's
concrete scenario frame: the logs do include source MAC 0x112233445566,
source port 67, destination MAC 0xAABBCCDDEEFF, destination port 68, and
the skipped-option record type 12 length 4; no record carries any option
value bytes; and the verdict is `XDP_ABORTED`. -/
theorem concrete_scenario_run :
    dhcp c8Frame =
      ⟨.ret XDP_ABORTED, fixedHeaderEvents 254 ++ [.optionHeader 12 4],
       [(0, 14), (14, 20), (34, 8), (42, 240), (282, 1), (283, 1), (288, 1)], 2⟩ ∧
    LogEvent.macPorts 0x112233445566 67 0xAABBCCDDEEFF 68 ∈ (dhcp c8Frame).events := by
  decide

set_option maxRecDepth 200000 in
/-- Claim C10 (counterexample): a frame that reaches the target-option
branch with the frame ending right after the option length byte fails the
`assert!` there and takes the panic path. -/
theorem target_branch_assert_fails :
    (dhcp c10Frame).outcome = .panicked := by decide

/-- Claim C4 (amended): the option scan only performs accesses belonging
to an option at a relative offset `r` that is strictly below the full UDP
length field and strictly below the absolute frame-end address; no
subtraction of the UDP header size takes place. -/
theorem scan_inspects_only_below_udp_length :
    ∀ (ctx : XdpCtx) (udpLen offset count : Nat) (a : Access),
      a ∈ (scanLoop ctx udpLen offset count).accesses →
      ∃ r, r < udpLen ∧ r < ctx.dataEnd ∧
        (a = (ETH_HDR_LEN + IP_HDR_LEN + UDP_HDR_LEN + r, 1) ∨
         a = (ETH_HDR_LEN + IP_HDR_LEN + UDP_HDR_LEN + r + 1, 1)) := by
  intro ctx udpLen offset count a ha
  exact (scanGo_props ctx udpLen (70 - count) offset count).2.2 a ha

set_option maxRecDepth 200000 in
/-- Witness for the amended Claim C4, at a 300-byte all-zero frame with
UDP length 241 whose scan reads the option bytes at relative offset 240. -/
theorem scan_inspects_witness :
    ∃ r, r < 241 ∧ r < XdpCtx.dataEnd ⟨0, List.replicate 300 0⟩ ∧
      (((ETH_HDR_LEN + IP_HDR_LEN + UDP_HDR_LEN + 240, 1) : Access) =
          (ETH_HDR_LEN + IP_HDR_LEN + UDP_HDR_LEN + r, 1) ∨
       ((ETH_HDR_LEN + IP_HDR_LEN + UDP_HDR_LEN + 240, 1) : Access) =
          (ETH_HDR_LEN + IP_HDR_LEN + UDP_HDR_LEN + r + 1, 1)) :=
  scan_inspects_only_below_udp_length ⟨0, List.replicate 300 0⟩ 241 240 0 _ (by decide)

/-- Claim C6 (counterexample): on a frame whose option region holds 100
zero-length non-sentinel options, the loop body executes 71 times, so the
claimed bound of at most 70 iterations fails. -/
theorem scan_performs_71_iterations :
    (dhcp c6Frame).scanIters = 71 ∧ ¬ ((dhcp c6Frame).scanIters ≤ 70) := by
  refine ⟨c6_run.2.1, ?_⟩
  rw [c6_run.2.1]
  omega

/-- Claim C6 (amended): the option-scan loop always terminates after at
most 71 iterations (the cap check `count >= 70` runs after the iteration's
work, so a 71st iteration executes before the break), and on the frame
with more than 70 zero-length options the verdict is Continue and no
target option is found or captured. -/
theorem scan_iteration_cap :
    (∀ ctx : XdpCtx, (dhcp ctx).scanIters ≤ 71) ∧
    (dhcp c6Frame).outcome = .ret XDP_PASS ∧
    (dhcp c6Frame).events.countP isFoundBody = 0 := by
  refine ⟨?_, c6_run.1, ?_⟩
  · intro ctx
    rw [dhcp_scanIters_eq]
    unfold tryDhcp
    repeat' split
    all_goals simp
    have := (scanGo_props ctx (udpLenField ctx) 70 240 0).2.1
    simpa [scanLoop] using this
  · rw [c6_run.2.2]
    decide

/-- Claim C7: a frame whose ethertype is not 0x0800 is passed after only
the Ethernet header access; a frame whose IPv4 protocol is not 17 after
only Ethernet and IPv4 accesses; a frame whose UDP source port is not 67
after only Ethernet, IPv4 and UDP accesses — each with verdict Continue,
no log records and no scan iterations. -/
theorem filter_mismatch_early_exit :
    ∀ ctx : XdpCtx,
      (ETH_HDR_LEN ≤ ctx.data.length → ethProto ctx ≠ ETH_P_IP →
        dhcp ctx = ⟨.ret XDP_PASS, [], [(0, ETH_HDR_LEN)], 0⟩) ∧
      (ETH_HDR_LEN + IP_HDR_LEN ≤ ctx.data.length → ethProto ctx = ETH_P_IP →
        ipProtocol ctx ≠ IPPROTO_UDP →
        dhcp ctx = ⟨.ret XDP_PASS, [], [(0, ETH_HDR_LEN), (ETH_HDR_LEN, IP_HDR_LEN)], 0⟩) ∧
      (ETH_HDR_LEN + IP_HDR_LEN + UDP_HDR_LEN ≤ ctx.data.length →
        ethProto ctx = ETH_P_IP → ipProtocol ctx = IPPROTO_UDP →
        udpSourcePort ctx ≠ 67 →
        dhcp ctx = ⟨.ret XDP_PASS, [],
          [(0, ETH_HDR_LEN), (ETH_HDR_LEN, IP_HDR_LEN),
           (ETH_HDR_LEN + IP_HDR_LEN, UDP_HDR_LEN)], 0⟩) := by
  intro ctx
  refine ⟨?_, ?_, ?_⟩
  · intro hlen hne
    have hp : ptr_at ctx 0 ETH_HDR_LEN = some (ctx.start + 0) := by
      unfold ptr_at XdpCtx.dataEnd
      rw [if_neg]
      omega
    simp [dhcp, tryDhcp, hp, hne]
  · intro hlen he hne
    have hp0 : ptr_at ctx 0 ETH_HDR_LEN = some (ctx.start + 0) := by
      unfold ptr_at XdpCtx.dataEnd
      rw [if_neg]
      simp [ETH_HDR_LEN] at hlen ⊢
      omega
    have hp1 : ptr_at ctx ETH_HDR_LEN IP_HDR_LEN = some (ctx.start + ETH_HDR_LEN) := by
      unfold ptr_at XdpCtx.dataEnd
      rw [if_neg]
      simp [ETH_HDR_LEN, IP_HDR_LEN] at hlen ⊢
      omega
    simp [dhcp, tryDhcp, hp0, hp1, he, hne]
  · intro hlen he hi hne
    have hp0 : ptr_at ctx 0 ETH_HDR_LEN = some (ctx.start + 0) := by
      unfold ptr_at XdpCtx.dataEnd
      rw [if_neg]
      simp [ETH_HDR_LEN] at hlen ⊢
      omega
    have hp1 : ptr_at ctx ETH_HDR_LEN IP_HDR_LEN = some (ctx.start + ETH_HDR_LEN) := by
      unfold ptr_at XdpCtx.dataEnd
      rw [if_neg]
      simp [ETH_HDR_LEN, IP_HDR_LEN] at hlen ⊢
      omega
    have hp2 : ptr_at ctx (ETH_HDR_LEN + IP_HDR_LEN) UDP_HDR_LEN =
        some (ctx.start + (ETH_HDR_LEN + IP_HDR_LEN)) := by
      unfold ptr_at XdpCtx.dataEnd
      rw [if_neg]
      simp [ETH_HDR_LEN, IP_HDR_LEN, UDP_HDR_LEN] at hlen ⊢
      omega
    simp [dhcp, tryDhcp, hp0, hp1, hp2, he, hi, hne]

/-- Witness for Claim C7, at a 14-byte all-zero frame (ethertype 0). -/
theorem filter_mismatch_witness :
    dhcp ⟨0, List.replicate 14 0⟩ = ⟨.ret XDP_PASS, [], [(0, ETH_HDR_LEN)], 0⟩ :=
  (filter_mismatch_early_exit ⟨0, List.replicate 14 0⟩).1 (by decide) (by decide)

/-- Claim C9: whenever the entry point returns a verdict it is `XDP_PASS`
or `XDP_ABORTED`; `XDP_DROP` is never produced (the only non-returning
path is the target-branch panic, which yields no verdict at all). -/
theorem dhcp_verdict_pass_or_aborted :
    ∀ (ctx : XdpCtx) (v : Nat),
      (dhcp ctx).outcome = .ret v → v = XDP_PASS ∨ v = XDP_ABORTED := by
  intro ctx v h
  rcases tryDhcp_res_cases ctx with hr | hr | hr <;>
    simp only [dhcp, hr] at h <;> simp_all

/-- Witness for Claim C9, at the empty frame whose verdict is
`XDP_ABORTED`. -/
theorem dhcp_verdict_witness :
    XDP_ABORTED = XDP_PASS ∨ XDP_ABORTED = XDP_ABORTED :=
  dhcp_verdict_pass_or_aborted ⟨0, []⟩ XDP_ABORTED (by decide)

/-- Claim C10 (amended): the target-branch assertion succeeds exactly when
`start + ETH_HDR_LEN + IP_HDR_LEN + UDP_HDR_LEN + offset + 10` is strictly
below the frame end; whenever a frame reaches the branch without that
slack the panic path is taken. -/
theorem target_branch_panics_iff :
    ∀ (ctx : XdpCtx) (offset optType length : Nat),
      (targetBranch ctx offset optType length).1 = .panicked ↔
        ¬ (ctx.start + ETH_HDR_LEN + IP_HDR_LEN + UDP_HDR_LEN + offset + 9 + 1 <
            ctx.dataEnd) := by
  intro ctx offset optType length
  by_cases h : ctx.start + ETH_HDR_LEN + IP_HDR_LEN + UDP_HDR_LEN + offset + 9 + 1 <
      ctx.dataEnd
  · simp [targetBranch, h]
  · simp [targetBranch, h]

end DhcpSnoop
